import Mathlib

/-!
Verification of the django-rls specification against the repository.

The repository ships the `django_rls` package (context store in
`django_rls/db/functions.py`, request middleware in `django_rls/middleware.py`,
SQL expression builder in `django_rls/expressions.py`, policy objects in
`django_rls/policies.py`, and the schema editor in
`django_rls/backends/postgresql/base.py`) together with a large test corpus.
The distributed source tree here contains only the package entry point and the
tests, so the bodies of those modules are modelled from the specification,
with every exact SQL string and call shape pinned by the repository's own
mock-based tests (which assert the emitted SQL and call arguments verbatim).
-/

namespace DjangoRLS

/- ## Context store: `django_rls/db/functions.py` -/

/-- Modelled from the spec: a parameter bound to a database call through the
driver's placeholder mechanism (missing module `django_rls/db/functions.py`).
Python passes heterogeneous parameter lists; here a parameter is either a
string or a boolean. -/
inductive SqlParam
  | str (s : String)
  | bool (b : Bool)
deriving DecidableEq, Repr

/-- Modelled from the spec: the values callers pass for a context variable
(missing module `django_rls/db/functions.py`): integers such as a user id, or
strings. The store stringifies the value before binding it. -/
inductive RlsValue
  | int (n : Int)
  | str (s : String)
deriving DecidableEq, Repr

/-- Stringification applied by `set_rls_context` before binding the value. -/
def RlsValue.toStr : RlsValue → String
  | .int n => toString n
  | .str s => s

/-- Modelled from the spec: one `cursor.execute(sql, params)` call issued to
the database driver (missing module `django_rls/db/functions.py`). -/
structure DbCall where
  sql : String
  params : List SqlParam
deriving DecidableEq, Repr

/-- Modelled from the spec: `set_rls_context(key, value, is_local)` of the
missing module `django_rls/db/functions.py` issues a single parameterized
session-configuration call `SELECT set_config(%s, %s, %s)` with the namespaced
key `rls.<key>`, the stringified value, and the scope flag bound as
parameters.  The returned list is the sequence of driver calls issued. -/
def set_rls_context (key : String) (value : RlsValue) (is_local : Bool) : List DbCall :=
  [{ sql := "SELECT set_config(%s, %s, %s)",
     params := [.str ("rls." ++ key), .str value.toStr, .bool is_local] }]

/-- Modelled from the spec: calling `set_rls_context` without an explicit
scope argument; the Python signature defaults `is_local=False`
(session scope). -/
def set_rls_context_default (key : String) (value : RlsValue) : List DbCall :=
  set_rls_context key value false

/-- C1: for every key and value, the default `set_rls_context` call issues
exactly one database call `SELECT set_config(%s, %s, %s)` whose bound
parameters are the namespaced key, the stringified value and the scope flag
`False` (session scope), and the SQL text itself never depends on the value. -/
theorem c1_set_context_single_parameterized_session_call
    (key : String) (value : RlsValue) :
    set_rls_context_default key value =
      [{ sql := "SELECT set_config(%s, %s, %s)",
         params := [.str ("rls." ++ key), .str value.toStr, .bool false] }]
    ∧ (set_rls_context_default key value).length = 1
    ∧ (∀ other : RlsValue,
        (set_rls_context_default key value).map DbCall.sql =
          (set_rls_context_default key other).map DbCall.sql) := by
  refine ⟨rfl, rfl, fun other => rfl⟩

/- ## Session-variable semantics and scoped acquisition (`RLSContext`) -/

/-- Modelled from the spec: the database session's configuration-variable
state read and written by the missing module `django_rls/db/functions.py`.
A key that was never set reads as `none` (PostgreSQL `current_setting(key,
true)` returns NULL); a key set to a string reads back as that string. -/
def Store : Type := String → Option String

/-- Modelled from the spec: the session-level effect of one
`SELECT set_config(key, value, ...)` call — the key now reads back as
`value`. -/
def setConfigStore (s : Store) (key value : String) : Store :=
  fun k => if k = key then some value else s k

/-- Modelled from the spec: `get_rls_context(key)` of the missing module
`django_rls/db/functions.py` reads the current setting missing-tolerantly,
returning `none` when the key was never set in this session. -/
def get_rls_context (s : Store) (key : String) : Option String :=
  s key

/-- Spec section 4.3 describes reads of unset-or-cleared keys as
"returns None/empty when unset": a context value counts as cleared when it is
absent or the empty string. -/
def readsAsCleared (v : Option String) : Bool :=
  match v with
  | none => true
  | some s => s == ""

/-- Modelled from the spec: `RLSContext.__enter__` of the missing module
`django_rls/db/functions.py`.  For each (key, value) pair in order it first
captures the prior value of the key (missing-tolerant read), then applies the
new value; it returns the updated session state together with the captured
prior values. -/
def scopeEnter (ctx : List (String × String)) (s : Store) :
    Store × List (String × Option String) :=
  ctx.foldl
    (fun acc kv =>
      (setConfigStore acc.1 kv.1 kv.2, acc.2 ++ [(kv.1, get_rls_context acc.1 kv.1)]))
    (s, [])

/-- Modelled from the spec: `RLSContext.__exit__` of the missing module
`django_rls/db/functions.py`.  For each captured (key, prior) pair it restores
the prior value, or clears the key (sets the empty string, the store's clear
convention) when there was no prior value. -/
def scopeExit (prev : List (String × Option String)) (s : Store) : Store :=
  prev.foldl (fun st kp => setConfigStore st kp.1 (kp.2.getD "")) s

/-- Whether the Python body of a scope returned normally or raised. -/
inductive Outcome
  | ok
  | raised
deriving DecidableEq, Repr

/-- Modelled from the spec: running a `with RLSContext(...)` block (missing
module `django_rls/db/functions.py`).  Python's `with` statement runs
`__exit__` on every exit path, and an exception raised by the body still
propagates afterwards. -/
def runScope (ctx : List (String × String)) (body : Store → Store × Outcome)
    (s : Store) : Store × Outcome :=
  let (s1, prev) := scopeEnter ctx s
  let (s2, r) := body s1
  (scopeExit prev s2, r)

/-- C4: scoped context acquisition is reversible under nesting.  Starting from
a session where `tenant_id` was never set, inside an outer scope setting
`tenant_id := v1` (and `user_id := u`) the key reads `v1`; an inner scope
setting `tenant_id := v2` reads `v2` inside; after the inner scope exits —
normally or by exception — the key reads `v1` again (restored, not cleared);
and after the outer scope exits — normally or by exception — the key reads as
cleared, with any body exception still propagating. -/
theorem c4_rls_context_nesting_reversible
    (s0 : Store) (v1 v2 u : String) (rInner : Outcome)
    (h : s0 "tenant_id" = none) :
    get_rls_context ((scopeEnter [("tenant_id", v1), ("user_id", u)] s0).1)
        "tenant_id" = some v1
    ∧ get_rls_context
        ((scopeEnter [("tenant_id", v2)]
          ((scopeEnter [("tenant_id", v1), ("user_id", u)] s0).1)).1)
        "tenant_id" = some v2
    ∧ get_rls_context
        ((runScope [("tenant_id", v2)] (fun st => (st, rInner))
          ((scopeEnter [("tenant_id", v1), ("user_id", u)] s0).1)).1)
        "tenant_id" = some v1
    ∧ readsAsCleared
        (get_rls_context
          ((runScope [("tenant_id", v1), ("user_id", u)]
            (fun st => runScope [("tenant_id", v2)] (fun st2 => (st2, rInner)) st)
            s0).1)
          "tenant_id") = true
    ∧ (runScope [("tenant_id", v1), ("user_id", u)]
        (fun st => runScope [("tenant_id", v2)] (fun st2 => (st2, rInner)) st)
        s0).2 = rInner := by
  refine ⟨?_, ?_, ?_, ?_, rfl⟩ <;>
    simp [scopeEnter, scopeExit, runScope, get_rls_context, setConfigStore, h,
      readsAsCleared]

/-- Witness for C4 at a concrete session state and values: `tenant_id` unset,
outer value "1", inner value "2", user "100", inner body raising. -/
theorem c4_witness :
    ((fun _ => none : Store) "tenant_id" = none)
    ∧ (get_rls_context
        ((scopeEnter [("tenant_id", "1"), ("user_id", "100")] (fun _ => none)).1)
        "tenant_id" = some "1"
      ∧ get_rls_context
          ((scopeEnter [("tenant_id", "2")]
            ((scopeEnter [("tenant_id", "1"), ("user_id", "100")]
              (fun _ => none)).1)).1)
          "tenant_id" = some "2"
      ∧ get_rls_context
          ((runScope [("tenant_id", "2")] (fun st => (st, .raised))
            ((scopeEnter [("tenant_id", "1"), ("user_id", "100")]
              (fun _ => none)).1)).1)
          "tenant_id" = some "1"
      ∧ readsAsCleared
          (get_rls_context
            ((runScope [("tenant_id", "1"), ("user_id", "100")]
              (fun st =>
                runScope [("tenant_id", "2")] (fun st2 => (st2, .raised)) st)
              (fun _ => none)).1)
            "tenant_id") = true
      ∧ (runScope [("tenant_id", "1"), ("user_id", "100")]
          (fun st => runScope [("tenant_id", "2")] (fun st2 => (st2, .raised)) st)
          (fun _ => none)).2 = .raised) :=
  ⟨rfl, c4_rls_context_nesting_reversible (fun _ => none) "1" "2" "100" .raised rfl⟩

/- ## Request middleware: `django_rls/middleware.py` -/

/-- Modelled from the spec: one `set_rls_context(key, value, is_local=...)`
call made by the middleware of the missing module
`django_rls/middleware.py`. -/
structure CtxCall where
  key : String
  value : RlsValue
  is_local : Bool
deriving DecidableEq, Repr

/-- Modelled from the spec: the parts of an HTTP request the middleware of
the missing module `django_rls/middleware.py` consults — only the
authenticated principal, the server-resolved tenant object and the
session-stored tenant id; caller-supplied headers, query parameters and body
fields are never context sources. -/
structure Request where
  authenticated : Bool
  user_id : Int
  tenant : Option Int
  session_tenant : Option Int
deriving DecidableEq, Repr

/-- Modelled from the spec: `RLSContextMiddleware._set_rls_context` of the
missing module `django_rls/middleware.py`.  An authenticated user produces a
session-scoped `user_id` set call; an anonymous user produces none.  The
tenant id is taken from `request.tenant` when present, else from the session,
else no tenant call is made. -/
def set_rls_context_calls (req : Request) : List CtxCall :=
  (if req.authenticated then [⟨"user_id", .int req.user_id, false⟩] else [])
    ++ (match req.tenant with
        | some t => [⟨"tenant_id", .int t, false⟩]
        | none =>
          match req.session_tenant with
          | some t => [⟨"tenant_id", .int t, false⟩]
          | none => [])

/-- Modelled from the spec: `RLSContextMiddleware._clear_rls_context` of the
missing module `django_rls/middleware.py` clears the context by issuing
session-scoped set calls assigning the empty string to the `user_id` and
`tenant_id` keys. -/
def clear_rls_context_calls : List CtxCall :=
  [⟨"user_id", .str "", false⟩, ⟨"tenant_id", .str "", false⟩]

/-- One phase of the middleware's per-request lifecycle trace. -/
inductive MwEvent
  | setPhase (calls : List CtxCall)
  | viewPhase (result : Outcome)
  | clearPhase (calls : List CtxCall)
deriving DecidableEq, Repr

/-- Recognizes the context-clearing phase in a middleware trace. -/
def MwEvent.isClearPhase : MwEvent → Bool
  | .clearPhase _ => true
  | _ => false

/-- Python `try/finally` over an event trace: the body runs first, the
finalizer always runs afterwards, and the body's outcome (return value or
propagating exception) is preserved. -/
def tryFinally (body : List MwEvent → List MwEvent × Outcome)
    (fin : List MwEvent → List MwEvent) (tr : List MwEvent) :
    List MwEvent × Outcome :=
  let (tr1, r) := body tr
  (fin tr1, r)

/-- Modelled from the spec: `RLSContextMiddleware.__call__` of the missing
module `django_rls/middleware.py`.  It sets the context, then runs the
wrapped view inside `try/finally`, clearing the context in the finalizer so
the clear runs on both the normal and the exceptional exit path; a view
exception still propagates. -/
def middlewareCall (req : Request) (view : Outcome) : List MwEvent × Outcome :=
  let tr0 := [MwEvent.setPhase (set_rls_context_calls req)]
  tryFinally (fun tr => (tr ++ [MwEvent.viewPhase view], view))
    (fun tr => tr ++ [MwEvent.clearPhase clear_rls_context_calls]) tr0

/-- C2: for every request and for both view outcomes (normal return and
raised exception), the middleware's trace contains the context-clearing phase
exactly once, it occurs after the view has run, and a view exception still
propagates to the caller. -/
theorem c2_clear_runs_exactly_once_every_exit_path
    (req : Request) (view : Outcome) :
    (middlewareCall req view).1.countP MwEvent.isClearPhase = 1
    ∧ (middlewareCall req view).1 =
        [MwEvent.setPhase (set_rls_context_calls req),
         MwEvent.viewPhase view,
         MwEvent.clearPhase clear_rls_context_calls]
    ∧ (middlewareCall req view).2 = view := by
  refine ⟨?_, rfl, rfl⟩
  simp [middlewareCall, tryFinally, List.countP_append, MwEvent.isClearPhase,
    List.countP_cons, List.countP_nil]

/-- C8: for every anonymous (unauthenticated) request — whatever its user id
field, tenant object and session tenant hold — the middleware's
context-setting phase issues zero set calls for the `user_id` key. -/
theorem c8_anonymous_user_sets_no_user_id
    (uid : Int) (tenant sess : Option Int) :
    (set_rls_context_calls
        { authenticated := false, user_id := uid,
          tenant := tenant, session_tenant := sess }).filter
      (fun c => c.key == "user_id") = [] := by
  cases tenant <;> cases sess <;>
    simp [set_rls_context_calls, List.filter]

/-- Modelled from the spec: the session-level effect of a sequence of
middleware `set_rls_context` calls (missing module
`django_rls/db/functions.py`): each call makes its key read back as the
stringified value it assigned. -/
def applyCtxCalls (s : Store) (cs : List CtxCall) : Store :=
  cs.foldl (fun st c => setConfigStore st c.key c.value.toStr) s

/-- C10: the middleware's clearing phase issues session-scoped set calls
assigning the empty string to both the `user_id` and the `tenant_id` keys
(two calls with value `''`), the clearing phase with exactly these calls is
part of every request's trace (anonymous requests included), and after the
clearing calls are applied each key reads back as the empty string — present,
not absent. -/
theorem c10_clear_assigns_empty_string_not_unset
    (req : Request) (view : Outcome) (s : Store) :
    clear_rls_context_calls =
      [⟨"user_id", .str "", false⟩, ⟨"tenant_id", .str "", false⟩]
    ∧ (clear_rls_context_calls.countP (fun c => c.value == .str "")) = 2
    ∧ (clear_rls_context_calls.all (fun c => !c.is_local)) = true
    ∧ MwEvent.clearPhase clear_rls_context_calls ∈ (middlewareCall req view).1
    ∧ get_rls_context (applyCtxCalls s clear_rls_context_calls) "user_id" = some ""
    ∧ get_rls_context (applyCtxCalls s clear_rls_context_calls) "tenant_id" = some "" := by
  refine ⟨rfl, by decide, by decide, ?_, ?_, ?_⟩
  · simp [middlewareCall, tryFinally]
  · simp [applyCtxCalls, clear_rls_context_calls, setConfigStore,
      get_rls_context, RlsValue.toStr]
  · simp [applyCtxCalls, clear_rls_context_calls, setConfigStore,
      get_rls_context, RlsValue.toStr]

/- ## Literal and identifier escaping: `django_rls/expressions.py` and the
schema editor's identifier quoting -/

/-- Character-level model of Python's `s.replace(q, q + q)` for a one-character
pattern `q`: every occurrence of `q` is doubled. -/
def doubleChar (q : Char) : List Char → List Char
  | [] => []
  | c :: cs => if c = q then q :: q :: doubleChar q cs else c :: doubleChar q cs

/-- Inverse of `doubleChar`: collapses each doubled occurrence of `q` back to
a single one. -/
def undoubleChar (q : Char) : List Char → List Char
  | [] => []
  | [c] => [c]
  | c1 :: c2 :: rest =>
    if c1 = q ∧ c2 = q then q :: undoubleChar q rest
    else c1 :: undoubleChar q (c2 :: rest)

/-- `doubleChar` maps only the empty list to the empty list. -/
theorem doubleChar_eq_nil {q : Char} {l : List Char}
    (h : doubleChar q l = []) : l = [] := by
  cases l with
  | nil => rfl
  | cons c cs =>
    by_cases hc : c = q <;> simp [doubleChar, hc] at h

/-- Undoubling a doubled list reproduces the original list: escaping is
lossless. -/
theorem undoubleChar_doubleChar (q : Char) (l : List Char) :
    undoubleChar q (doubleChar q l) = l := by
  induction l with
  | nil => rfl
  | cons c cs ih =>
    by_cases hc : c = q
    · subst hc
      simp [doubleChar, undoubleChar, ih]
    · rw [doubleChar, if_neg hc]
      cases hd : doubleChar q cs with
      | nil =>
        have := doubleChar_eq_nil hd
        subst this
        rfl
      | cons d ds =>
        rw [undoubleChar, if_neg (by intro hh; exact hc hh.1), ← hd, ih]

/-- Modelled from the spec: `RLSExpression._format_value` of the missing
module `django_rls/expressions.py` applied to a string value — it returns the
value wrapped in single quotes with every embedded single quote doubled
(`value.replace(chr(39), chr(39) * 2)` inside quotes). -/
def format_value (s : String) : String :=
  "'" ++ String.mk (doubleChar '\'' s.data) ++ "'"

/-- C3: for every string `s`, `_format_value s` starts and ends with a single
quote, its interior is exactly `s` with each embedded single quote doubled,
unescaping the interior reproduces `s`, and on the adversarial input from the
injection test the result is the correctly escaped literal. -/
theorem c3_format_value_escapes_and_round_trips (s : String) :
    (format_value s).data = '\'' :: (doubleChar '\'' s.data ++ ['\''])
    ∧ undoubleChar '\'' (doubleChar '\'' s.data) = s.data
    ∧ format_value "1'; DROP TABLE users; --" = "'1''; DROP TABLE users; --'" := by
  refine ⟨?_, undoubleChar_doubleChar _ _, by decide⟩
  show ("'" ++ String.mk (doubleChar '\'' s.data) ++ "'").data = _
  simp [String.data_append]

/- ## Policy objects: `django_rls/policies.py` -/

/-- Modelled from the spec: `TenantPolicy.get_sql_expression` of the missing
module `django_rls/policies.py`; the exact string is pinned by the repository
test asserting it equals
`company_id = current_setting('rls.tenant_id')::integer` for tenant field
`company`. -/
def tenant_policy_expression (tenant_field : String) : String :=
  tenant_field ++ "_id = current_setting('rls.tenant_id')::integer"

/-- Modelled from the spec: `UserPolicy.get_sql_expression` of the missing
module `django_rls/policies.py`; the exact string is pinned by the repository
test asserting it equals `owner_id = current_setting('rls.user_id')::integer`
for user field `owner`. -/
def user_policy_expression (user_field : String) : String :=
  user_field ++ "_id = current_setting('rls.user_id')::integer"

/-- Modelled from the spec: the SQL rendered for a `CurrentContext`
context-variable expression of the missing module `django_rls/policies.py` —
the missing-tolerant form `NULLIF(current_setting(<key>, true), '')` with the
target cast type appended. -/
def current_context_sql (compiled_key : String) (cast_type : String) : String :=
  "NULLIF(current_setting(" ++ compiled_key ++ ", true), '')::" ++ cast_type

/-- C6 counterexample: the `TenantPolicy` expression for tenant field
`company` — the instance pinned by the repository's own policy test — does not
contain `NULLIF` (nor the missing-tolerant `true` flag), so not every policy
kind embedding a context reference uses the `NULLIF(current_setting(<key>,
true), '')::<cast>` form. -/
theorem c6_counterexample_tenant_policy_lacks_nullif :
    tenant_policy_expression "company" =
      "company_id = current_setting('rls.tenant_id')::integer"
    ∧ ¬ ("NULLIF".data <:+: (tenant_policy_expression "company").data)
    ∧ ¬ (", true".data <:+: (tenant_policy_expression "company").data) := by
  refine ⟨rfl, by decide, by decide⟩

/-- C6 (amended): the missing-tolerant cast form is produced by the
`CurrentContext` expression path — for every key and cast type the rendered
SQL starts with `NULLIF(current_setting(`, contains the missing-tolerant
`, true), '')` tail and ends with `::<cast_type>` (in particular `::uuid` for
a UUID target) — while the legacy `TenantPolicy`/`UserPolicy` expressions
render a bare `current_setting('rls.<key>')::integer` comparison whose fixed
tail contains no `NULLIF`. -/
theorem c6_amended_nullif_cast_only_in_current_context
    (compiled_key cast_type tenant_field user_field : String) :
    "NULLIF(current_setting(".data <:+: (current_context_sql compiled_key cast_type).data
    ∧ (", true), '')::" ++ cast_type).data <:+: (current_context_sql compiled_key cast_type).data
    ∧ ("::" ++ cast_type).data <:+ (current_context_sql compiled_key cast_type).data
    ∧ "::uuid".data <:+: (current_context_sql "%s" "uuid").data
    ∧ "current_setting".data <:+: (current_context_sql "%s" "uuid").data
    ∧ tenant_policy_expression tenant_field =
        tenant_field ++ "_id = current_setting('rls.tenant_id')::integer"
    ∧ user_policy_expression user_field =
        user_field ++ "_id = current_setting('rls.user_id')::integer"
    ∧ ¬ ("NULLIF".data <:+: "_id = current_setting('rls.tenant_id')::integer".data)
    ∧ ¬ ("NULLIF".data <:+: "_id = current_setting('rls.user_id')::integer".data) := by
  refine ⟨?_, ?_, ?_, by decide, by decide, rfl, rfl, by decide, by decide⟩
  · exact List.IsPrefix.isInfix
      ⟨compiled_key.data ++ (", true), '')::" : String).data ++ cast_type.data,
       by simp [current_context_sql, String.data_append]⟩
  · exact List.IsSuffix.isInfix
      ⟨"NULLIF(current_setting(".data ++ compiled_key.data,
       by simp [current_context_sql, String.data_append]⟩
  · have hB : (", true), '')::" : String).data =
        (", true), '')" : String).data ++ ("::" : String).data := by decide
    refine ⟨"NULLIF(current_setting(".data ++ compiled_key.data
      ++ (", true), '')" : String).data, ?_⟩
    simp [current_context_sql, String.data_append, hB]

/-- Modelled from the spec: the `PolicyError` variants raised at
Policy-construction time by the missing module `django_rls/policies.py`
(empty name, invalid operation keyword, empty required field, unsafe
field-name characters). -/
inductive PolicyErrorKind
  | nameRequired
  | invalidOperation
  | fieldRequired
  | invalidFieldName
deriving DecidableEq, Repr

/-- Modelled from the spec: the operation keywords accepted by `BasePolicy`
(`SELECT`, `INSERT`, `UPDATE`, `DELETE`, `ALL`). -/
def valid_operations : List String := ["SELECT", "INSERT", "UPDATE", "DELETE", "ALL"]

/-- A character allowed inside a safe identifier: letters, digits and
underscore. -/
def isIdentChar (c : Char) : Bool := c.isAlpha || c.isDigit || c == '_'

/-- The spec's safe-identifier pattern
`^[A-Za-z_][A-Za-z0-9_]*$`: nonempty, leading letter or underscore, all
remaining characters letters, digits or underscores. -/
def matchesSafeIdentifier (s : String) : Bool :=
  match s.data with
  | [] => false
  | c :: cs => (c.isAlpha || c == '_') && cs.all isIdentChar

/-- Modelled from the spec: an immutable policy value object of the missing
module `django_rls/policies.py` after successful construction. -/
structure Policy where
  name : String
  operation : String
  permissive : Bool
  using_expr : String
  check_expr : Option String
deriving DecidableEq, Repr

/-- Modelled from the spec: the `BasePolicy.__init__` validation of the
missing module `django_rls/policies.py` — the name must be non-empty
(`name is required`) and the operation must be a valid keyword
(`Invalid operation`); the repository's injection test constructs a policy
whose name is `test'; DROP TABLE users; --`, so no further pattern check is
applied to the name. -/
def base_policy_validate (nm operation : String) : Option PolicyErrorKind :=
  if nm = "" then some .nameRequired
  else if operation ∈ valid_operations then none
  else some .invalidOperation

/-- Modelled from the spec: the field-name validation of the missing module
`django_rls/policies.py` — a required field must be non-empty, and field
names are interpolated as identifiers so they must contain only letters,
numbers and underscores (`Invalid field name` otherwise). -/
def validate_field (field : String) : Option PolicyErrorKind :=
  if field = "" then some .fieldRequired
  else if !(matchesSafeIdentifier field) then some .invalidFieldName
  else none

/-- Modelled from the spec: `UserPolicy(name, user_field, operation,
permissive)` construction of the missing module `django_rls/policies.py`. -/
def mk_user_policy (nm user_field operation : String) (permissive : Bool) :
    Except PolicyErrorKind Policy :=
  match base_policy_validate nm operation with
  | some e => .error e
  | none =>
    match validate_field user_field with
    | some e => .error e
    | none =>
      .ok { name := nm, operation := operation, permissive := permissive,
            using_expr := user_policy_expression user_field,
            check_expr := some (user_policy_expression user_field) }

/-- Modelled from the spec: `TenantPolicy(name, tenant_field, operation,
permissive)` construction of the missing module `django_rls/policies.py`. -/
def mk_tenant_policy (nm tenant_field operation : String) (permissive : Bool) :
    Except PolicyErrorKind Policy :=
  match base_policy_validate nm operation with
  | some e => .error e
  | none =>
    match validate_field tenant_field with
    | some e => .error e
    | none =>
      .ok { name := nm, operation := operation, permissive := permissive,
            using_expr := tenant_policy_expression tenant_field,
            check_expr := some (tenant_policy_expression tenant_field) }

/-- Whether policy construction succeeded. -/
def exceptIsOk {ε α : Type} : Except ε α → Bool
  | .ok _ => true
  | .error _ => false

/-- C9 counterexample: a policy whose name is `test'; DROP TABLE users; --`
fails the safe-identifier pattern yet constructs successfully (the
repository's injection test builds exactly this policy and then creates it),
so construction does not raise `PolicyError` for names violating
`^[A-Za-z_][A-Za-z0-9_]*$`. -/
theorem c9_counterexample_name_pattern_not_enforced :
    exceptIsOk (mk_user_policy "test'; DROP TABLE users; --" "owner" "ALL" true) = true
    ∧ matchesSafeIdentifier "test'; DROP TABLE users; --" = false := by
  exact ⟨by decide, by decide⟩

/-- C9 (amended): policy construction validates before any SQL is built —
an empty name raises `PolicyError` (`name is required`), an invalid operation
keyword raises `PolicyError` (`Invalid operation`), an empty required field
raises `PolicyError`, and a field name containing characters outside letters,
numbers and underscores raises `PolicyError`; construction succeeds exactly
when the name is non-empty, the operation is valid and the field is a safe
identifier — the policy name itself is not checked against the
safe-identifier pattern. -/
theorem c9_amended_construction_validation
    (nm uf tf op : String) (perm : Bool) :
    exceptIsOk (mk_user_policy nm uf op perm)
      = (!(nm == "") && decide (op ∈ valid_operations) && matchesSafeIdentifier uf)
    ∧ exceptIsOk (mk_tenant_policy nm tf op perm)
      = (!(nm == "") && decide (op ∈ valid_operations) && matchesSafeIdentifier tf)
    ∧ mk_user_policy "" "owner" "ALL" true = .error .nameRequired
    ∧ mk_user_policy "test" "owner" "INVALID" true = .error .invalidOperation
    ∧ mk_tenant_policy "test_policy" "tenant'; DELETE FROM users WHERE '1'='1"
        "ALL" true = .error .invalidFieldName
    ∧ mk_tenant_policy "test_policy" "" "ALL" true = .error .fieldRequired
    ∧ exceptIsOk
        (mk_user_policy "test'; DROP TABLE users; --" "owner" "ALL" true) = true := by
  refine ⟨?_, ?_, rfl, rfl, rfl, rfl, by decide⟩
  · by_cases h1 : nm = ""
    · simp [mk_user_policy, base_policy_validate, h1, exceptIsOk]
    · by_cases h2 : op ∈ valid_operations
      · by_cases h3 : uf = ""
        · subst h3
          simp [mk_user_policy, base_policy_validate, validate_field, h1, h2,
            exceptIsOk, matchesSafeIdentifier]
        · by_cases h4 : matchesSafeIdentifier uf
          · simp [mk_user_policy, base_policy_validate, validate_field, h1, h2, h3,
              h4, exceptIsOk]
          · simp [mk_user_policy, base_policy_validate, validate_field, h1, h2, h3,
              h4, exceptIsOk]
      · simp [mk_user_policy, base_policy_validate, h1, h2, exceptIsOk]
  · by_cases h1 : nm = ""
    · simp [mk_tenant_policy, base_policy_validate, h1, exceptIsOk]
    · by_cases h2 : op ∈ valid_operations
      · by_cases h3 : tf = ""
        · subst h3
          simp [mk_tenant_policy, base_policy_validate, validate_field, h1, h2,
            exceptIsOk, matchesSafeIdentifier]
        · by_cases h4 : matchesSafeIdentifier tf
          · simp [mk_tenant_policy, base_policy_validate, validate_field, h1, h2, h3,
              h4, exceptIsOk]
          · simp [mk_tenant_policy, base_policy_validate, validate_field, h1, h2, h3,
              h4, exceptIsOk]
      · simp [mk_tenant_policy, base_policy_validate, h1, h2, exceptIsOk]

/- ## Schema editor DDL: `django_rls/backends/postgresql/base.py` -/

/-- Modelled from the spec: the schema editor's identifier quoting (missing
module `django_rls/backends/postgresql/base.py`) — the name is wrapped in
double quotes with internal double quotes doubled. -/
def quote_name (n : String) : String :=
  "\"" ++ String.mk (doubleChar '"' n.data) ++ "\""

/-- Modelled from the spec: `RLSDatabaseSchemaEditor.enable_rls` (missing
module `django_rls/backends/postgresql/base.py`) executes one statement
`ALTER TABLE "<table>" ENABLE ROW LEVEL SECURITY`. -/
def enable_rls_sql (table : String) : List String :=
  ["ALTER TABLE " ++ quote_name table ++ " ENABLE ROW LEVEL SECURITY"]

/-- Modelled from the spec: `RLSDatabaseSchemaEditor.disable_rls` executes one
statement `ALTER TABLE "<table>" DISABLE ROW LEVEL SECURITY`. -/
def disable_rls_sql (table : String) : List String :=
  ["ALTER TABLE " ++ quote_name table ++ " DISABLE ROW LEVEL SECURITY"]

/-- Modelled from the spec: `RLSDatabaseSchemaEditor.force_rls` executes one
statement `ALTER TABLE "<table>" FORCE ROW LEVEL SECURITY`. -/
def force_rls_sql (table : String) : List String :=
  ["ALTER TABLE " ++ quote_name table ++ " FORCE ROW LEVEL SECURITY"]

/-- Modelled from the spec: `RLSDatabaseSchemaEditor.drop_policy` executes one
statement `DROP POLICY IF EXISTS "<name>" ON "<table>"`. -/
def drop_policy_sql (table policy_name : String) : List String :=
  ["DROP POLICY IF EXISTS " ++ quote_name policy_name ++ " ON " ++ quote_name table]

/-- Modelled from the spec: `RLSDatabaseSchemaEditor.create_policy` executes
one statement `CREATE POLICY "<name>" ON "<table>" AS
{PERMISSIVE|RESTRICTIVE} FOR <operation> TO public USING (<using>)
[WITH CHECK (<check>)]`. -/
def create_policy_sql (table : String) (p : Policy) : List String :=
  ["CREATE POLICY " ++ quote_name p.name ++ " ON " ++ quote_name table
    ++ " AS " ++ (if p.permissive then "PERMISSIVE" else "RESTRICTIVE")
    ++ " FOR " ++ p.operation ++ " TO public USING (" ++ p.using_expr ++ ")"
    ++ (match p.check_expr with
        | some c => " WITH CHECK (" ++ c ++ ")"
        | none => "")]

/-- Modelled from the spec: `RLSDatabaseSchemaEditor.alter_policy` executes
one statement `ALTER POLICY "<name>" ON "<table>" USING (<using>)
[WITH CHECK (<check>)]`. -/
def alter_policy_sql (table : String) (p : Policy) : List String :=
  ["ALTER POLICY " ++ quote_name p.name ++ " ON " ++ quote_name table
    ++ " USING (" ++ p.using_expr ++ ")"
    ++ (match p.check_expr with
        | some c => " WITH CHECK (" ++ c ++ ")"
        | none => "")]

set_option maxRecDepth 100000 in
/-- C7: every DDL statement the schema editor emits — enable, disable and
force RLS, CREATE POLICY, ALTER POLICY and DROP POLICY IF EXISTS — presents
the table and policy names wrapped in double quotes (internal double quotes
doubled, so the original name is recoverable from the quoted identifier);
enable/disable/force/drop each emit exactly one statement of the documented
shape, create and alter each emit exactly one statement carrying both quoted
names; and on the adversarial names of the injection tests the emitted SQL
carries the hostile name only as a quoted identifier, matching the exact
strings the tests assert. -/
theorem c7_ddl_quotes_identifiers (table policy_name : String) (p : Policy) :
    ((quote_name table).data = '"' :: (doubleChar '"' table.data ++ ['"'])
      ∧ undoubleChar '"' (doubleChar '"' table.data) = table.data)
    ∧ (enable_rls_sql table =
        ["ALTER TABLE " ++ quote_name table ++ " ENABLE ROW LEVEL SECURITY"]
      ∧ disable_rls_sql table =
        ["ALTER TABLE " ++ quote_name table ++ " DISABLE ROW LEVEL SECURITY"]
      ∧ force_rls_sql table =
        ["ALTER TABLE " ++ quote_name table ++ " FORCE ROW LEVEL SECURITY"]
      ∧ drop_policy_sql table policy_name =
        ["DROP POLICY IF EXISTS " ++ quote_name policy_name ++ " ON "
          ++ quote_name table]
      ∧ (enable_rls_sql table).length = 1 ∧ (disable_rls_sql table).length = 1
      ∧ (force_rls_sql table).length = 1
      ∧ (drop_policy_sql table policy_name).length = 1)
    ∧ (∃ stmt, create_policy_sql table p = [stmt]
        ∧ (quote_name p.name).data <:+: stmt.data
        ∧ (quote_name table).data <:+: stmt.data
        ∧ "CREATE POLICY ".data <+: stmt.data)
    ∧ (∃ stmt, alter_policy_sql table p = [stmt]
        ∧ (quote_name p.name).data <:+: stmt.data
        ∧ (quote_name table).data <:+: stmt.data
        ∧ "ALTER POLICY ".data <+: stmt.data)
    ∧ alter_policy_sql "test_table"
        { name := "test_policy", operation := "ALL", permissive := true,
          using_expr := "new_expression", check_expr := none } =
        ["ALTER POLICY \"test_policy\" ON \"test_table\" USING (new_expression)"]
    ∧ enable_rls_sql "users'; DROP TABLE sensitive_data; --" =
        ["ALTER TABLE \"users'; DROP TABLE sensitive_data; --\" ENABLE ROW LEVEL SECURITY"]
    ∧ (create_policy_sql "test_table"
          { name := "test'; DROP TABLE users; --", operation := "ALL",
            permissive := true, using_expr := user_policy_expression "owner",
            check_expr := none } =
        ["CREATE POLICY \"test'; DROP TABLE users; --\" ON \"test_table\" AS PERMISSIVE FOR ALL TO public USING (owner_id = current_setting('rls.user_id')::integer)"]
      ∧ "\"test'; DROP TABLE users; --\"".data <:+:
          "CREATE POLICY \"test'; DROP TABLE users; --\" ON \"test_table\" AS PERMISSIVE FOR ALL TO public USING (owner_id = current_setting('rls.user_id')::integer)".data
      ∧ "CREATE POLICY".data <:+:
          "CREATE POLICY \"test'; DROP TABLE users; --\" ON \"test_table\" AS PERMISSIVE FOR ALL TO public USING (owner_id = current_setting('rls.user_id')::integer)".data
      ∧ "USING".data <:+:
          "CREATE POLICY \"test'; DROP TABLE users; --\" ON \"test_table\" AS PERMISSIVE FOR ALL TO public USING (owner_id = current_setting('rls.user_id')::integer)".data) := by
  refine ⟨⟨?_, undoubleChar_doubleChar _ _⟩,
    ⟨rfl, rfl, rfl, rfl, rfl, rfl, rfl, rfl⟩, ?_, ?_, by decide, by decide, ?_⟩
  · show ("\"" ++ String.mk (doubleChar '"' table.data) ++ "\"").data = _
    simp [String.data_append]
  · refine ⟨_, rfl, ?_, ?_, ?_⟩
    · exact
        ⟨"CREATE POLICY ".data,
         (" ON " ++ quote_name table ++ " AS "
           ++ (if p.permissive then "PERMISSIVE" else "RESTRICTIVE")
           ++ " FOR " ++ p.operation ++ " TO public USING (" ++ p.using_expr ++ ")"
           ++ (match p.check_expr with
               | some c => " WITH CHECK (" ++ c ++ ")"
               | none => "")).data,
         by simp [String.data_append]⟩
    · exact
        ⟨("CREATE POLICY " ++ quote_name p.name ++ " ON ").data,
         (" AS " ++ (if p.permissive then "PERMISSIVE" else "RESTRICTIVE")
           ++ " FOR " ++ p.operation ++ " TO public USING (" ++ p.using_expr ++ ")"
           ++ (match p.check_expr with
               | some c => " WITH CHECK (" ++ c ++ ")"
               | none => "")).data,
         by simp [String.data_append]⟩
    · exact
        ⟨(quote_name p.name ++ " ON " ++ quote_name table ++ " AS "
           ++ (if p.permissive then "PERMISSIVE" else "RESTRICTIVE")
           ++ " FOR " ++ p.operation ++ " TO public USING (" ++ p.using_expr ++ ")"
           ++ (match p.check_expr with
               | some c => " WITH CHECK (" ++ c ++ ")"
               | none => "")).data,
         by simp [String.data_append]⟩
  · refine ⟨_, rfl, ?_, ?_, ?_⟩
    · exact
        ⟨"ALTER POLICY ".data,
         (" ON " ++ quote_name table ++ " USING (" ++ p.using_expr ++ ")"
           ++ (match p.check_expr with
               | some c => " WITH CHECK (" ++ c ++ ")"
               | none => "")).data,
         by simp [String.data_append]⟩
    · exact
        ⟨("ALTER POLICY " ++ quote_name p.name ++ " ON ").data,
         (" USING (" ++ p.using_expr ++ ")"
           ++ (match p.check_expr with
               | some c => " WITH CHECK (" ++ c ++ ")"
               | none => "")).data,
         by simp [String.data_append]⟩
    · exact
        ⟨(quote_name p.name ++ " ON " ++ quote_name table
           ++ " USING (" ++ p.using_expr ++ ")"
           ++ (match p.check_expr with
               | some c => " WITH CHECK (" ++ c ++ ")"
               | none => "")).data,
         by simp [String.data_append]⟩
  · refine ⟨rfl, by decide, by decide, by decide⟩

/- ## Join rewriting for relation-crossing predicates (issue 14) -/

/-- Modelled from the spec: the foreign-key relation a dotted field path
(such as `company.name` on `Employee`) crosses — the local FK column, the
related table and its primary-key column (missing compiler path of
`django_rls/policies.py`, the `ModelPolicy`/Q-object compiler). -/
structure FkRelation where
  fk_column : String
  table : String
  pk_column : String
deriving DecidableEq, Repr

/-- Modelled from the spec: errors the policy compiler could raise; the old
behavior for a relation-crossing field was a field/compilation error. -/
inductive CompileErrorKind
  | fieldError
deriving DecidableEq, Repr

/-- Modelled from the spec: compiling a `FieldEquals` whose field crosses a
relation boundary (missing compiler path of `django_rls/policies.py`).
Instead of raising a field error or emitting a join, the compiler succeeds
and produces the subquery form
`<local_fk_column> IN (SELECT <related_pk> FROM <related_table> WHERE
<compiled remainder>)`. -/
def compileJoinedFieldEquals (rel : FkRelation) (remainderSql : String) :
    Except CompileErrorKind String :=
  .ok (rel.fk_column ++ " IN (SELECT " ++ rel.pk_column ++ " FROM "
    ++ rel.table ++ " WHERE " ++ remainderSql ++ ")")

/-- A row of the policy's own table, as far as the rewritten predicate is
concerned: its foreign-key column value. -/
structure LocalRow where
  fk : Int
deriving DecidableEq, Repr

/-- A row of the related table: its primary key (the remainder predicate is
abstracted as a Boolean function of the whole related row). -/
structure RelatedRow where
  pk : Int
  attr : String
deriving DecidableEq, Repr

/-- Row visibility under the subquery form: the local row's FK value is in
the set of primary keys of related rows satisfying the remainder. -/
def subqueryAdmits (related : List RelatedRow) (remainder : RelatedRow → Bool)
    (row : LocalRow) : Bool :=
  (related.filter remainder).any (fun r => r.pk == row.fk)

/-- Row visibility under the join form: some related row joins on the FK
value and satisfies the remainder. -/
def joinAdmits (related : List RelatedRow) (remainder : RelatedRow → Bool)
    (row : LocalRow) : Bool :=
  related.any (fun r => r.pk == row.fk && remainder r)

/-- The subquery rewriting is logically equivalent to the join it replaces:
both admit exactly the same rows. -/
theorem subqueryAdmits_eq_joinAdmits (related : List RelatedRow)
    (remainder : RelatedRow → Bool) (row : LocalRow) :
    subqueryAdmits related remainder row = joinAdmits related remainder row := by
  induction related with
  | nil => rfl
  | cons r rs ih =>
    unfold subqueryAdmits joinAdmits at ih ⊢
    by_cases hr : remainder r
    · simp [List.filter_cons, List.any_cons, hr, ih]
    · simp [List.filter_cons, List.any_cons, hr, ih]

/-- C5: compiling a policy predicate whose field crosses a relation boundary
succeeds (no field or compilation error) and yields
`<local_fk_column> IN (SELECT <related_pk> FROM <related_table> WHERE
<compiled remainder>)`; when the identifiers and the compiled remainder
contain no comma, the produced USING clause contains no comma at all — so no
`FROM a, b` multi-table join can occur in it — and the subquery form admits
exactly the rows the join form would admit. -/
theorem c5_joined_field_compiles_to_equivalent_subquery
    (rel : FkRelation) (remainderSql : String)
    (h1 : ',' ∉ rel.fk_column.data) (h2 : ',' ∉ rel.pk_column.data)
    (h3 : ',' ∉ rel.table.data) (h4 : ',' ∉ remainderSql.data) :
    ∃ sql, compileJoinedFieldEquals rel remainderSql = .ok sql
    ∧ sql = rel.fk_column ++ " IN (SELECT " ++ rel.pk_column ++ " FROM "
        ++ rel.table ++ " WHERE " ++ remainderSql ++ ")"
    ∧ " IN (SELECT ".data <:+: sql.data
    ∧ ',' ∉ sql.data
    ∧ (∀ related remainder row,
        subqueryAdmits related remainder row = joinAdmits related remainder row) := by
  refine ⟨_, rfl, rfl, ?_, ?_, fun related remainder row =>
    subqueryAdmits_eq_joinAdmits related remainder row⟩
  · exact
      ⟨rel.fk_column.data,
       (rel.pk_column ++ " FROM " ++ rel.table ++ " WHERE " ++ remainderSql
         ++ ")").data,
       by simp [String.data_append]⟩
  · show ',' ∉ (rel.fk_column ++ " IN (SELECT " ++ rel.pk_column ++ " FROM "
      ++ rel.table ++ " WHERE " ++ remainderSql ++ ")").data
    simp only [String.data_append, List.mem_append, not_or]
    exact ⟨⟨⟨⟨⟨⟨⟨h1, by decide⟩, h2⟩, by decide⟩, h3⟩, by decide⟩, h4⟩, by decide⟩

/-- Witness for C5 at the concrete relation of the issue-14 test
(`Employee.company` → `issue14_company.id`, remainder `name = 'Acme'`):
the comma-freedom hypotheses hold and the compiled USING clause is the
expected subquery. -/
theorem c5_witness :
    (',' ∉ ("company_id" : String).data ∧ ',' ∉ ("id" : String).data
      ∧ ',' ∉ ("issue14_company" : String).data
      ∧ ',' ∉ ("name = 'Acme'" : String).data)
    ∧ ∃ sql, compileJoinedFieldEquals ⟨"company_id", "issue14_company", "id"⟩
          "name = 'Acme'" = .ok sql
        ∧ sql = ("company_id" : String) ++ " IN (SELECT " ++ "id" ++ " FROM "
            ++ "issue14_company" ++ " WHERE " ++ "name = 'Acme'" ++ ")"
        ∧ " IN (SELECT ".data <:+: sql.data
        ∧ ',' ∉ sql.data
        ∧ (∀ related remainder row,
            subqueryAdmits related remainder row = joinAdmits related remainder row) :=
  ⟨⟨by decide, by decide, by decide, by decide⟩,
    c5_joined_field_compiles_to_equivalent_subquery
      ⟨"company_id", "issue14_company", "id"⟩ "name = 'Acme'"
      (by decide) (by decide) (by decide) (by decide)⟩

end DjangoRLS
